import Mathlib

/-!
# Verification of the julia-rs exception bridge (`src/api/exception.rs`)

A shallow embedding of the exception bridge of the `julia-rs` repository.
The file `src/api/exception.rs` is embedded faithfully; the parts of the
repository that the bridge uses but that live outside that file (the
`Ref` handle type with its `lock` and `typename` operations, the string
marshalling utility, and the foreign `jl_*` entry points of the Julia
runtime) are modelled from the specification's capability contracts
(spec §3, §4.1, §6).

Foreign calls are modelled with an explicit outcome type `RunResult`
that records the list of native entry points actually invoked and
whether control returned normally to the caller or was transferred
away into the interpreter's fault-handling path.
-/

set_option autoImplicit false

deriving instance DecidableEq for Except

namespace JuliaRs

/-- Modelled from the spec (§6, string marshalling utility): the foreign
string representation of host text.  At every call site inside
`exception.rs` the conversion `into_cstring` is applied infallibly
before the foreign call, so it is modelled as a total wrapper. -/
structure CStr where
  val : String
deriving Repr, DecidableEq

/-- Modelled from the spec (§6): convert host text to the foreign
string representation (`IntoCString::into_cstring` in the source). -/
def into_cstring (s : String) : CStr := ⟨s⟩

/-- Modelled from the spec (§3, Host error): the host-side error
superset (`error::Error` in the repository).  Only the failure modes
reachable from the exception bridge are modelled: handle invalidation
(`HandleError`, §4.1) and a failing type-name lookup on a handle (the
source's `value.typename()?` in `Exception::with_value` propagates a
`Result`). -/
inductive JlError where
  /-- The handle's tracked value has been invalidated (spec §4.1). -/
  | HandleError
  /-- The runtime-reported type-name lookup on a wrapped value failed. -/
  | TypenameError
deriving Repr, DecidableEq

/-- Modelled from the spec (§3, Handle): a host-side tracked reference to
an interpreter-owned value (`Ref` in the repository, defined outside
`exception.rs`).  `valid` is the interpreter-side bookkeeping consulted
by `lock`; `ptr` is the raw pointer produced by a successful `lock`;
`tyname` is the runtime-reported type-name of the referenced value,
`none` when the lookup fails. -/
structure Ref where
  valid : Bool
  ptr : Nat
  tyname : Option String
deriving Repr, DecidableEq

/-- Modelled from the spec (§4.1): `lock(&self) -> Result<RawPointer,
HandleError>`; fails with `HandleError` if the handle's tracked value
has been invalidated, otherwise returns the raw pointer. -/
def Ref.lock (self : Ref) : Except JlError Nat :=
  if self.valid then .ok self.ptr else .error .HandleError

/-- Modelled from the spec (§4.2, classification): read the fault
object's runtime-reported type-name string.  The lookup is fallible —
`Exception::with_value` in the source propagates its `Result` with
`?`. -/
def Ref.typename (self : Ref) : Except JlError String :=
  match self.tyname with
  | some s => .ok s
  | none => .error .TypenameError

/-- The `Datatype` wrapper of the repository is a handle like `Ref`
(spec §4.3: "a target type handle"). -/
abbrev Datatype := Ref

/-- The `Symbol` wrapper of the repository is a handle like `Ref`
(spec §4.3: "a symbol handle"). -/
abbrev Symbol := Ref

/-- A native fault-raising entry point invocation, recording the entry
point and the marshalled arguments passed to it (spec §6 capability
set). -/
inductive FCall where
  | jl_throw (v : Nat)
  | jl_rethrow_other (v : Nat)
  | jl_error (s : CStr)
  | jl_exceptionf (ty : Nat) (s : CStr)
  | jl_too_few_args (fname : CStr) (n : Int)
  | jl_too_many_args (fname : CStr) (n : Int)
  | jl_type_error (fname : CStr) (expected : Nat) (got : Nat)
  | jl_type_error_rt (fname : CStr) (context : CStr) (ty : Nat) (got : Nat)
  | jl_undefined_var_error (v : Nat)
  | jl_bounds_error (v : Nat) (idx : Nat)
  | jl_bounds_error_v (v : Nat) (idxs : List Nat)
  | jl_bounds_error_int (v : Nat) (i : Nat)
  | jl_bounds_error_tuple_int (vs : List Nat) (i : Nat)
  | jl_bounds_error_ints (v : Nat) (idxs : List Nat)
  | jl_eof_error
deriving Repr, DecidableEq

/-- Outcome of running a piece of bridge code: either control returns
normally to the caller with a value, or control is transferred away
into the interpreter's fault-handling path and never returns (spec §2:
"control does not return to the caller on success").  Both record the
native fault-raising entry points invoked along the way. -/
inductive RunResult (α : Type) where
  | ret (calls : List FCall) (val : α)
  | transfer (calls : List FCall)
deriving Repr, DecidableEq

/-- Sequencing of bridge code: a transfer of control propagates,
skipping the rest of the caller's body; a normal return continues. -/
def RunResult.bind {α β : Type} : RunResult α → (α → RunResult β) → RunResult β
  | .ret cs a, f =>
    match f a with
    | .ret cs2 b => .ret (cs ++ cs2) b
    | .transfer cs2 => .transfer (cs ++ cs2)
  | .transfer cs, _ => .transfer cs

/-- Modelled from the spec (§6): raise-fault-now(handle); once invoked,
transfers control away and does not yield a value back. -/
def jl_throw (v : Nat) : RunResult Unit := .transfer [.jl_throw v]

/-- Modelled from the spec (§6): re-raise-fault(handle); transfers
control away. -/
def jl_rethrow_other (v : Nat) : RunResult Unit := .transfer [.jl_rethrow_other v]

/-- Modelled from the spec (§6): raise-generic(message); transfers
control away. -/
def jl_error (s : CStr) : RunResult Unit := .transfer [.jl_error s]

/-- Modelled from the spec (§6): raise-typed(datatype-handle, message);
transfers control away. -/
def jl_exceptionf (ty : Nat) (s : CStr) : RunResult Unit := .transfer [.jl_exceptionf ty s]

/-- Modelled from the spec (§6): raise-too-few-args(name, min);
transfers control away. -/
def jl_too_few_args (fname : CStr) (n : Int) : RunResult Unit :=
  .transfer [.jl_too_few_args fname n]

/-- Modelled from the spec (§6): raise-too-many-args(name, max);
transfers control away. -/
def jl_too_many_args (fname : CStr) (n : Int) : RunResult Unit :=
  .transfer [.jl_too_many_args fname n]

/-- Modelled from the spec (§6): raise-type-mismatch(name,
expected-handle, got-handle); transfers control away. -/
def jl_type_error (fname : CStr) (expected got : Nat) : RunResult Unit :=
  .transfer [.jl_type_error fname expected got]

/-- Modelled from the spec (§6): raise-type-mismatch-with-context(name,
context, expected-handle, got-handle); transfers control away. -/
def jl_type_error_rt (fname context : CStr) (ty got : Nat) : RunResult Unit :=
  .transfer [.jl_type_error_rt fname context ty got]

/-- Modelled from the spec (§6): raise-undefined-variable(symbol-handle);
transfers control away. -/
def jl_undefined_var_error (v : Nat) : RunResult Unit :=
  .transfer [.jl_undefined_var_error v]

/-- Modelled from the spec (§6): raise-bounds(value-handle,
index-handle); transfers control away. -/
def jl_bounds_error (v idx : Nat) : RunResult Unit := .transfer [.jl_bounds_error v idx]

/-- Modelled from the spec (§6): raise-bounds-vector(value-handle,
index-handles); transfers control away. -/
def jl_bounds_error_v (v : Nat) (idxs : List Nat) : RunResult Unit :=
  .transfer [.jl_bounds_error_v v idxs]

/-- Modelled from the spec (§6): the single-integer-index bounds raise
(`jl_bounds_error_int` in the source); transfers control away. -/
def jl_bounds_error_int (v : Nat) (i : Nat) : RunResult Unit :=
  .transfer [.jl_bounds_error_int v i]

/-- Modelled from the spec (§6): raise-bounds-tuple(value-handles,
int-index); transfers control away. -/
def jl_bounds_error_tuple_int (vs : List Nat) (i : Nat) : RunResult Unit :=
  .transfer [.jl_bounds_error_tuple_int vs i]

/-- Modelled from the spec (§6): raise-bounds-ints(value-handle,
int-indices); transfers control away. -/
def jl_bounds_error_ints (v : Nat) (idxs : List Nat) : RunResult Unit :=
  .transfer [.jl_bounds_error_ints v idxs]

/-- Modelled from the spec (§6): raise-end-of-input(); transfers control
away. -/
def jl_eof_error : RunResult Unit := .transfer [.jl_eof_error]

/-- Enum containing different Julia exceptions wrapped as a `Ref`
(`exception.rs` lines 17–69). -/
inductive Exception where
  | Argument (value : Ref)
  | Bounds (value : Ref)
  | Composite (value : Ref)
  | Divide (value : Ref)
  | Domain (value : Ref)
  | EOF (value : Ref)
  | Error (value : Ref)
  | Inexact (value : Ref)
  | Init (value : Ref)
  | Interrupt (value : Ref)
  | InvalidState (value : Ref)
  | Key (value : Ref)
  | Load (value : Ref)
  | OutOfMemory (value : Ref)
  | ReadOnlyMemory (value : Ref)
  | Remote (value : Ref)
  | Method (value : Ref)
  | Overflow (value : Ref)
  | Parse (value : Ref)
  | System (value : Ref)
  | TypeAssert (value : Ref)
  | UndefRef (value : Ref)
  | UndefVar (value : Ref)
  | Unicode (value : Ref)
  | Unknown (value : Ref)
deriving Repr, DecidableEq

/-- `Exception::with_value` (`exception.rs` lines 113–143): construct a
new `Exception` with a wrapped Julia value, classifying by the value's
runtime-reported type-name string. -/
def Exception.with_value (value : Ref) : Except JlError Exception :=
  match value.typename with
  | .error e => .error e
  | .ok typename =>
    let ex : Exception :=
      match typename with
      | "ArgumentError" => Exception.Argument value
      | "BoundsError" => Exception.Bounds value
      | "CompositeException" => Exception.Composite value
      | "DivideError" => Exception.Divide value
      | "DomainError" => Exception.Domain value
      | "EOFError" => Exception.EOF value
      | "ErrorException" => Exception.Error value
      | "InexactError" => Exception.Inexact value
      | "InitError" => Exception.Init value
      | "InterruptException" => Exception.Interrupt value
      | "InvalidStateException" => Exception.InvalidState value
      | "KeyError" => Exception.Key value
      | "LoadError" => Exception.Load value
      | "OutOfMemoryError" => Exception.OutOfMemory value
      | "ReadOnlyMemoryError" => Exception.ReadOnlyMemory value
      | "RemoteException" => Exception.Remote value
      | "MethodError" => Exception.Method value
      | "OverflowError" => Exception.Overflow value
      | "ParseError" => Exception.Parse value
      | "SystemError" => Exception.System value
      | "TypeError" => Exception.TypeAssert value
      | "UndefRefError" => Exception.UndefRef value
      | "UndefVarError" => Exception.UndefVar value
      | "UnicodeError" => Exception.Unicode value
      | _ => Exception.Unknown value
    .ok ex

/-- `Exception::inner_ref` (`exception.rs` lines 146–174): immutably
borrows the inner value. -/
def Exception.inner_ref : Exception → Ref
  | .Argument value => value
  | .Bounds value => value
  | .Composite value => value
  | .Divide value => value
  | .Domain value => value
  | .EOF value => value
  | .Error value => value
  | .Inexact value => value
  | .Init value => value
  | .Interrupt value => value
  | .InvalidState value => value
  | .Key value => value
  | .Load value => value
  | .OutOfMemory value => value
  | .ReadOnlyMemory value => value
  | .Remote value => value
  | .Method value => value
  | .Overflow value => value
  | .Parse value => value
  | .System value => value
  | .TypeAssert value => value
  | .UndefRef value => value
  | .UndefVar value => value
  | .Unicode value => value
  | .Unknown value => value

/-- `Exception::throw` (`exception.rs` lines 72–80): lock the wrapped
handle (early-returning its error), then invoke `jl_throw`; the
trailing `Ok(())` of the source is the continuation after the foreign
call. -/
def Exception.throw (self : Exception) : RunResult (Except JlError Unit) :=
  match self.inner_ref.lock with
  | .error e => .ret [] (.error e)
  | .ok raw => (jl_throw raw).bind fun _ => .ret [] (.ok ())

/-- `Exception::rethrow` (`exception.rs` lines 82–90): lock the wrapped
handle, then invoke `jl_rethrow_other`. -/
def Exception.rethrow (self : Exception) : RunResult (Except JlError Unit) :=
  match self.inner_ref.lock with
  | .error e => .ret [] (.error e)
  | .ok raw => (jl_rethrow_other raw).bind fun _ => .ret [] (.ok ())

/-- Modelled from the spec (§3, Fault-capture state): the process-wide
single-slot pending-fault register owned by the interpreter.  `none`
is the Clear state, `some r` the Pending state holding the fault
object. -/
structure JlState where
  pending : Option Ref
deriving Repr, DecidableEq

/-- Modelled from the spec (§4.2): the Clear state is initial. -/
def JlState.init : JlState := ⟨none⟩

/-- Modelled from the spec (§4.2): the Clear → Pending transition,
caused by the interpreter as a side effect of a foreign call that
faults. -/
def JlState.set_fault (_s : JlState) (r : Ref) : JlState := ⟨some r⟩

/-- Modelled from the spec (§6): probe-pending-fault() → nullable
handle; reads the register without changing it. -/
def jl_exception_occurred (s : JlState) : Option Ref := s.pending

/-- Modelled from the spec (§6): clear-pending-fault(); resets the
register to Clear. -/
def jl_exception_clear (_s : JlState) : JlState := ⟨none⟩

/-- `Exception::occurred` (`exception.rs` lines 93–95): check if an
exception occurred without checking its value.  A pure probe of the
register: it consumes the state and yields only a `Bool`. -/
def Exception.occurred (s : JlState) : Bool :=
  (jl_exception_occurred s).isSome

/-- `Exception::catch` (`exception.rs` lines 99–109): read the register,
clear it, and if a fault object was pending classify it with
`with_value`, discarding a classification error with `.ok()`.  Returns
the register state after the call together with the optional captured
exception. -/
def Exception.catch (s : JlState) : JlState × Option Exception :=
  let raw := jl_exception_occurred s
  let s1 := jl_exception_clear s
  match raw with
  | none => (s1, none)
  | some r => (s1, (Exception.with_value r).toOption)

/-- `impl fmt::Debug for Exception` (`exception.rs` lines 252–257): the
rendered text is the runtime-reported type-name of the wrapped value
(obtained through `Deref` to the inner `Ref`); a failing lookup is
mapped to `fmt::Error`. -/
def Exception.fmt_debug (self : Exception) : Except Unit String :=
  match self.inner_ref.typename with
  | .error _ => .error ()
  | .ok typename => .ok typename

/-- `impl fmt::Display for Exception` (`exception.rs` lines 260–264):
delegates to the `Debug` implementation. -/
def Exception.fmt_display (self : Exception) : Except Unit String :=
  self.fmt_debug

/-- The discriminant of an `Exception`: which of the 25 kinds it is,
independent of the wrapped fault object. -/
def Exception.discriminant : Exception → Nat
  | .Argument _ => 0
  | .Bounds _ => 1
  | .Composite _ => 2
  | .Divide _ => 3
  | .Domain _ => 4
  | .EOF _ => 5
  | .Error _ => 6
  | .Inexact _ => 7
  | .Init _ => 8
  | .Interrupt _ => 9
  | .InvalidState _ => 10
  | .Key _ => 11
  | .Load _ => 12
  | .OutOfMemory _ => 13
  | .ReadOnlyMemory _ => 14
  | .Remote _ => 15
  | .Method _ => 16
  | .Overflow _ => 17
  | .Parse _ => 18
  | .System _ => 19
  | .TypeAssert _ => 20
  | .UndefRef _ => 21
  | .UndefVar _ => 22
  | .Unicode _ => 23
  | .Unknown _ => 24

/-- `impl error::Error for Exception`, `fn description` (`exception.rs`
lines 266–300): the fixed per-kind one-line description table. -/
def Exception.description : Exception → String
  | .Argument _ => "the parameters to a function call do not match a valid signature"
  | .Bounds _ => "attempt to access index out-of-bounds"
  | .Composite _ => "composite exception"
  | .Divide _ => "divide by zero"
  | .Domain _ => "the argument is outside of the valid domain"
  | .EOF _ => "no more data is available from file or stream"
  | .Error _ => "generic error occurred"
  | .Inexact _ => "type conversion cannot be done exactly"
  | .Init _ => "an error occurred when running a module's __init__ "
  | .Interrupt _ => "the process was stopped by a terminal interrupt (^C)"
  | .InvalidState _ => "the program reached an invalid exception"
  | .Key _ => "key doesn't exist in Associative- or Set-like object"
  | .Load _ => "an error occurred while include-ing, require-ing or using a file"
  | .OutOfMemory _ => "operation allocated too much memory"
  | .ReadOnlyMemory _ => "operation tried to write to read-only memory"
  | .Remote _ => "remote exception occurred"
  | .Method _ => "method with the required type signature doesn't exist"
  | .Overflow _ => "the result of an expression is too large"
  | .Parse _ => "the expression couldn't be parsed as a valid Julia expression"
  | .System _ => "system call failed"
  | .TypeAssert _ => "type assertion failed"
  | .UndefRef _ => "the item or field is not defined"
  | .UndefVar _ => "symbol is not defined in current scope"
  | .Unicode _ => "byte array does not represent a valid unicode string"
  | .Unknown _ => "unknown exception"

/-- The semantics of Rust's `as i32` applied to a `usize` value
(modelled as an unbounded `Nat`): reduce modulo `2^32` and reinterpret
the result as a two's-complement signed 32-bit integer. -/
def usizeToI32 (n : Nat) : Int :=
  let m : Nat := n % 2 ^ 32
  if m < 2 ^ 31 then (m : Int) else (m : Int) - 2 ^ 32

/-- The lock-every-element loop used by `bounds_error_v` and
`bounds_error_tuple_int` (`exception.rs` lines 397–399 and 419–421):
lock each handle in order, early-returning the first failure. -/
def lockList : List Ref → Except JlError (List Nat)
  | [] => .ok []
  | r :: rest =>
    match r.lock with
    | .error e => .error e
    | .ok p =>
      match lockList rest with
      | .error e => .error e
      | .ok ps => .ok (p :: ps)

/-- `error` (`exception.rs` lines 303–309): throws a generic error. -/
def error (string : String) : RunResult Unit :=
  let string := into_cstring string
  (jl_error string).bind fun _ => .ret [] ()

/-- `error_format` (`exception.rs` lines 312–314): throws a formatted
generic error; the formatted text is the argument. -/
def error_format (args : String) : RunResult Unit :=
  error args

/-- `exception` (`exception.rs` lines 317–325): throws an exception with
the specified `Datatype` and message. -/
def exception (ty : Datatype) (string : String) : RunResult (Except JlError Unit) :=
  match ty.lock with
  | .error e => .ret [] (.error e)
  | .ok ty =>
    let string := into_cstring string
    (jl_exceptionf ty string).bind fun _ => .ret [] (.ok ())

/-- `exception_format` (`exception.rs` lines 328–330): throws an
exception with the specified `Datatype` and a formatted message. -/
def exception_format (ty : Datatype) (args : String) : RunResult (Except JlError Unit) :=
  exception ty args

/-- `too_few_args` (`exception.rs` lines 333–339): too few arguments
exception; the source passes `min as i32`. -/
def too_few_args (fname : String) (min : Nat) : RunResult Unit :=
  let fname := into_cstring fname
  (jl_too_few_args fname (usizeToI32 min)).bind fun _ => .ret [] ()

/-- `too_many_args` (`exception.rs` lines 342–348): too many arguments
exception; the source passes `max as i32`. -/
def too_many_args (fname : String) (max : Nat) : RunResult Unit :=
  let fname := into_cstring fname
  (jl_too_many_args fname (usizeToI32 max)).bind fun _ => .ret [] ()

/-- `type_error` (`exception.rs` lines 351–360): invalid type in an
expression. -/
def type_error (fname : String) (expected got : Ref) : RunResult (Except JlError Unit) :=
  let fname := into_cstring fname
  match expected.lock with
  | .error e => .ret [] (.error e)
  | .ok expected =>
    match got.lock with
    | .error e => .ret [] (.error e)
    | .ok got => (jl_type_error fname expected got).bind fun _ => .ret [] (.ok ())

/-- `type_error_rt` (`exception.rs` lines 362–373). -/
def type_error_rt (fname context : String) (ty got : Ref) : RunResult (Except JlError Unit) :=
  let fname := into_cstring fname
  let context := into_cstring context
  match ty.lock with
  | .error e => .ret [] (.error e)
  | .ok ty =>
    match got.lock with
    | .error e => .ret [] (.error e)
    | .ok got => (jl_type_error_rt fname context ty got).bind fun _ => .ret [] (.ok ())

/-- `undefined_var_error` (`exception.rs` lines 376–382): no value is
bound to this symbol. -/
def undefined_var_error (var : Symbol) : RunResult (Except JlError Unit) :=
  match var.lock with
  | .error e => .ret [] (.error e)
  | .ok var => (jl_undefined_var_error var).bind fun _ => .ret [] (.ok ())

/-- `bounds_error` (`exception.rs` lines 385–392): index out of bound,
value handle plus single index handle. -/
def bounds_error (v : Ref) (idx : Ref) : RunResult (Except JlError Unit) :=
  match v.lock with
  | .error e => .ret [] (.error e)
  | .ok v =>
    match idx.lock with
    | .error e => .ret [] (.error e)
    | .ok idx => (jl_bounds_error v idx).bind fun _ => .ret [] (.ok ())

/-- `bounds_error_v` (`exception.rs` lines 394–406): value handle plus a
sequence of index handles, each locked in order. -/
def bounds_error_v (v : Ref) (idxs : List Ref) : RunResult (Except JlError Unit) :=
  match v.lock with
  | .error e => .ret [] (.error e)
  | .ok v =>
    match lockList idxs with
    | .error e => .ret [] (.error e)
    | .ok indices => (jl_bounds_error_v v indices).bind fun _ => .ret [] (.ok ())

/-- `bounds_error_int` (`exception.rs` lines 409–415): value handle plus
a single raw integer index. -/
def bounds_error_int (v : Ref) (i : Nat) : RunResult (Except JlError Unit) :=
  match v.lock with
  | .error e => .ret [] (.error e)
  | .ok v => (jl_bounds_error_int v i).bind fun _ => .ret [] (.ok ())

/-- `bounds_error_tuple_int` (`exception.rs` lines 417–428): a sequence
of value handles, each locked in order, plus a single integer index. -/
def bounds_error_tuple_int (v : List Ref) (i : Nat) : RunResult (Except JlError Unit) :=
  match lockList v with
  | .error e => .ret [] (.error e)
  | .ok vs => (jl_bounds_error_tuple_int vs i).bind fun _ => .ret [] (.ok ())

/-- `bounds_error_ints` (`exception.rs` lines 440–448): value handle
plus a sequence of raw integer indices (passed through unmodified). -/
def bounds_error_ints (v : Ref) (idxs : List Nat) : RunResult (Except JlError Unit) :=
  match v.lock with
  | .error e => .ret [] (.error e)
  | .ok v => (jl_bounds_error_ints v idxs).bind fun _ => .ret [] (.ok ())

/-- `eof_error` (`exception.rs` lines 451–455): unexpected end of
file. -/
def eof_error : RunResult Unit :=
  jl_eof_error.bind fun _ => .ret [] ()

end JuliaRs

namespace JuliaRs

/-- The classification table of `Exception::with_value` (spec §4.2): the
24 known type-name strings paired with the variant each yields. -/
def knownTable : List (String × (Ref → Exception)) :=
  [("ArgumentError", Exception.Argument),
   ("BoundsError", Exception.Bounds),
   ("CompositeException", Exception.Composite),
   ("DivideError", Exception.Divide),
   ("DomainError", Exception.Domain),
   ("EOFError", Exception.EOF),
   ("ErrorException", Exception.Error),
   ("InexactError", Exception.Inexact),
   ("InitError", Exception.Init),
   ("InterruptException", Exception.Interrupt),
   ("InvalidStateException", Exception.InvalidState),
   ("KeyError", Exception.Key),
   ("LoadError", Exception.Load),
   ("OutOfMemoryError", Exception.OutOfMemory),
   ("ReadOnlyMemoryError", Exception.ReadOnlyMemory),
   ("RemoteException", Exception.Remote),
   ("MethodError", Exception.Method),
   ("OverflowError", Exception.Overflow),
   ("ParseError", Exception.Parse),
   ("SystemError", Exception.System),
   ("TypeError", Exception.TypeAssert),
   ("UndefRefError", Exception.UndefRef),
   ("UndefVarError", Exception.UndefVar),
   ("UnicodeError", Exception.Unicode)]

/-- Auxiliary: an exception constructed by `with_value` wraps exactly
the given value. -/
theorem with_value_inner_ref (r : Ref) (e : Exception)
    (h : Exception.with_value r = .ok e) : e.inner_ref = r := by
  unfold Exception.with_value at h
  rcases ht : r.typename with e1 | s
  · simp [ht] at h
  · simp only [ht] at h
    injection h with h
    subst h
    split <;> rfl

/-- Auxiliary: the lock-every-element loop succeeds on a list of valid
handles, producing their raw pointers in order. -/
theorem lockList_ok_of_valid (rs : List Ref) (h : ∀ r ∈ rs, r.valid = true) :
    lockList rs = .ok (rs.map Ref.ptr) := by
  induction rs with
  | nil => rfl
  | cons r rest ih =>
    have hr : r.valid = true := h r (by simp)
    have hrest := ih (fun x hx => h x (by simp [hx]))
    simp [lockList, Ref.lock, hr, hrest]

/-- **C1.** `Exception::with_value` classifies by matching the wrapped
value's runtime-reported type-name string verbatim and case-sensitively
against the fixed table of 24 known names; each known name yields its
matching variant, and every other name yields `Unknown` rather than an
error. -/
theorem with_value_classification :
    knownTable.length = 24 ∧
    (∀ (r : Ref) (s : String) (mk : Ref → Exception),
      (s, mk) ∈ knownTable → r.tyname = some s →
      Exception.with_value r = .ok (mk r)) ∧
    (∀ (r : Ref) (s : String),
      r.tyname = some s → s ∉ knownTable.map Prod.fst →
      Exception.with_value r = .ok (.Unknown r)) := by
  refine ⟨rfl, ?_, ?_⟩
  · intro r s mk hmem h
    fin_cases hmem <;> simp [Exception.with_value, Ref.typename, h]
  · intro r s h hns
    simp only [knownTable, List.map_cons, List.map_nil, List.mem_cons,
      List.not_mem_nil, not_or] at hns
    simp only [Exception.with_value, Ref.typename, h]
    split <;> simp_all

/-- Witness for **C1** at concrete inputs. -/
theorem with_value_classification_witness :
    Exception.with_value ⟨true, 3, some "DivideError"⟩
      = .ok (.Divide ⟨true, 3, some "DivideError"⟩) ∧
    Exception.with_value ⟨true, 4, some "FooError"⟩
      = .ok (.Unknown ⟨true, 4, some "FooError"⟩) :=
  ⟨with_value_classification.2.1 _ _ _ (by simp [knownTable]) rfl,
   with_value_classification.2.2 _ _ rfl (by decide)⟩

/-- **C2, counterexample.** A state whose register is Pending (holding a
fault object whose type-name lookup fails) for which `catch` returns
`none`, refuting "if the register is Pending, catch() ... returns
exactly one Exception" as stated. -/
theorem catch_pending_counterexample :
    (JlState.mk (some ⟨true, 7, none⟩)).pending.isSome = true ∧
    (Exception.catch ⟨some ⟨true, 7, none⟩⟩).2 = none := by decide

/-- **C2, amended.** If the register is Clear, `catch` returns `none`;
if it is Pending and classification of the fault object succeeds,
`catch` clears the register and returns exactly one Exception; after
`catch` returns the register is never left Pending, so a second
immediate `catch` with no intervening fault returns `none`. -/
theorem catch_contract :
    (∀ s : JlState, s.pending = none → Exception.catch s = (⟨none⟩, none)) ∧
    (∀ (s : JlState) (r : Ref) (ex : Exception),
      s.pending = some r → Exception.with_value r = .ok ex →
      Exception.catch s = (⟨none⟩, some ex)) ∧
    (∀ s : JlState, (Exception.catch s).1.pending = none) ∧
    (∀ s : JlState, (Exception.catch (Exception.catch s).1).2 = none) := by
  refine ⟨?_, ?_, ?_, ?_⟩
  · intro s h
    simp [Exception.catch, jl_exception_occurred, jl_exception_clear, h]
  · intro s r ex h hw
    simp [Exception.catch, jl_exception_occurred, jl_exception_clear, h, hw,
      Except.toOption]
  · intro s
    rcases s with ⟨_ | r⟩ <;>
      simp [Exception.catch, jl_exception_occurred, jl_exception_clear]
  · intro s
    rcases s with ⟨_ | r⟩ <;>
      simp [Exception.catch, jl_exception_occurred, jl_exception_clear]

/-- Witness for **C2** (amended) at a concrete input. -/
theorem catch_contract_witness :
    Exception.catch ⟨some ⟨true, 7, some "DivideError"⟩⟩
      = (⟨none⟩, some (.Divide ⟨true, 7, some "DivideError"⟩)) :=
  catch_contract.2.1 _ _ _ rfl (by decide)

/-- **C3.** `occurred` is a pure probe of the register (it consumes a
state and yields only a `Bool`, leaving no successor state): it is
`false` on the freshly initialized bridge, `true` after the interpreter
sets a pending fault, and `false` again after `catch` has run. -/
theorem occurred_round_trip :
    Exception.occurred JlState.init = false ∧
    (∀ (s : JlState) (r : Ref), Exception.occurred (s.set_fault r) = true) ∧
    (∀ s : JlState, Exception.occurred (Exception.catch s).1 = false) := by
  refine ⟨rfl, ?_, ?_⟩
  · intro s r
    simp [Exception.occurred, jl_exception_occurred, JlState.set_fault]
  · intro s
    rcases s with ⟨_ | r⟩ <;>
      simp [Exception.occurred, Exception.catch, jl_exception_occurred,
        jl_exception_clear]

/-- **C9.** `catch` clears the pending-fault register unconditionally,
before testing whether a fault was pending; consequently, if
classification of a pending fault object fails, `catch` returns `none`
even though a fault was pending, and the fault is silently dropped with
the register left Clear. -/
theorem catch_drops_unclassifiable_fault :
    (∀ s : JlState, (Exception.catch s).1 = jl_exception_clear s) ∧
    (∀ (s : JlState) (r : Ref) (e : JlError),
      s.pending = some r → Exception.with_value r = .error e →
      Exception.catch s = (⟨none⟩, none)) := by
  constructor
  · intro s
    rcases s with ⟨_ | r⟩ <;>
      simp [Exception.catch, jl_exception_occurred, jl_exception_clear]
  · intro s r e h hw
    simp [Exception.catch, jl_exception_occurred, jl_exception_clear, h, hw,
      Except.toOption]

/-- Witness for **C9** at a concrete input. -/
theorem catch_drops_unclassifiable_fault_witness :
    Exception.catch ⟨some ⟨true, 7, none⟩⟩ = (⟨none⟩, none) :=
  catch_drops_unclassifiable_fault.2 _ ⟨true, 7, none⟩ .TypenameError rfl (by decide)

/-- **C4.** `throw` and `rethrow` first lock the wrapped Handle; if the
Handle has been invalidated they return the lock's `HandleError` having
performed no foreign call (empty call trace), and any normally returned
`Result` of theirs only ever reports this failure to begin the
throw. -/
theorem throw_rethrow_lock_first :
    (∀ e : Exception, e.inner_ref.valid = false →
      e.throw = .ret [] (.error .HandleError) ∧
      e.rethrow = .ret [] (.error .HandleError)) ∧
    (∀ e : Exception, e.inner_ref.valid = true →
      e.throw = .transfer [.jl_throw e.inner_ref.ptr] ∧
      e.rethrow = .transfer [.jl_rethrow_other e.inner_ref.ptr]) ∧
    (∀ (e : Exception) (cs : List FCall) (v : Except JlError Unit),
      e.throw = .ret cs v → cs = [] ∧ v = .error .HandleError) ∧
    (∀ (e : Exception) (cs : List FCall) (v : Except JlError Unit),
      e.rethrow = .ret cs v → cs = [] ∧ v = .error .HandleError) := by
  refine ⟨?_, ?_, ?_, ?_⟩
  · intro e h
    constructor <;> simp [Exception.throw, Exception.rethrow, Ref.lock, h]
  · intro e h
    constructor <;>
      simp [Exception.throw, Exception.rethrow, Ref.lock, h, jl_throw,
        jl_rethrow_other, RunResult.bind]
  · intro e cs v h
    rcases hv : e.inner_ref.valid <;>
      simp [Exception.throw, Ref.lock, hv, jl_throw, RunResult.bind] at h
    simp_all
  · intro e cs v h
    rcases hv : e.inner_ref.valid <;>
      simp [Exception.rethrow, Ref.lock, hv, jl_rethrow_other, RunResult.bind] at h
    simp_all

/-- Witness for **C4** at concrete inputs. -/
theorem throw_rethrow_lock_first_witness :
    Exception.throw (.Argument ⟨false, 0, none⟩) = .ret [] (.error .HandleError) ∧
    Exception.throw (.Argument ⟨true, 5, none⟩) = .transfer [.jl_throw 5] :=
  ⟨(throw_rethrow_lock_first.1 (.Argument ⟨false, 0, none⟩) (by decide)).1,
   (throw_rethrow_lock_first.2.1 (.Argument ⟨true, 5, none⟩) (by decide)).1⟩

/-- **C6.** On the success path `throw`, `rethrow`, and every raise
constructor do not return control to the caller: each either fails
before any foreign call and returns an error, or transfers control
into the interpreter's fault-handling path; a normally returning
`Ok(())` is unreachable in normal operation. -/
theorem raise_never_returns_ok :
    (∀ e : Exception,
      (∃ err, e.throw = .ret [] (.error err)) ∨ ∃ cs, e.throw = .transfer cs) ∧
    (∀ e : Exception,
      (∃ err, e.rethrow = .ret [] (.error err)) ∨ ∃ cs, e.rethrow = .transfer cs) ∧
    (∀ s : String, ∃ cs, error s = .transfer cs) ∧
    (∀ s : String, ∃ cs, error_format s = .transfer cs) ∧
    (∀ (ty : Datatype) (s : String),
      (∃ err, exception ty s = .ret [] (.error err)) ∨
        ∃ cs, exception ty s = .transfer cs) ∧
    (∀ (ty : Datatype) (s : String),
      (∃ err, exception_format ty s = .ret [] (.error err)) ∨
        ∃ cs, exception_format ty s = .transfer cs) ∧
    (∀ (f : String) (n : Nat), ∃ cs, too_few_args f n = .transfer cs) ∧
    (∀ (f : String) (n : Nat), ∃ cs, too_many_args f n = .transfer cs) ∧
    (∀ (f : String) (a b : Ref),
      (∃ err, type_error f a b = .ret [] (.error err)) ∨
        ∃ cs, type_error f a b = .transfer cs) ∧
    (∀ (f c : String) (t g : Ref),
      (∃ err, type_error_rt f c t g = .ret [] (.error err)) ∨
        ∃ cs, type_error_rt f c t g = .transfer cs) ∧
    (∀ v : Symbol,
      (∃ err, undefined_var_error v = .ret [] (.error err)) ∨
        ∃ cs, undefined_var_error v = .transfer cs) ∧
    (∀ v idx : Ref,
      (∃ err, bounds_error v idx = .ret [] (.error err)) ∨
        ∃ cs, bounds_error v idx = .transfer cs) ∧
    (∀ (v : Ref) (idxs : List Ref),
      (∃ err, bounds_error_v v idxs = .ret [] (.error err)) ∨
        ∃ cs, bounds_error_v v idxs = .transfer cs) ∧
    (∀ (v : Ref) (i : Nat),
      (∃ err, bounds_error_int v i = .ret [] (.error err)) ∨
        ∃ cs, bounds_error_int v i = .transfer cs) ∧
    (∀ (vs : List Ref) (i : Nat),
      (∃ err, bounds_error_tuple_int vs i = .ret [] (.error err)) ∨
        ∃ cs, bounds_error_tuple_int vs i = .transfer cs) ∧
    (∀ (v : Ref) (idxs : List Nat),
      (∃ err, bounds_error_ints v idxs = .ret [] (.error err)) ∨
        ∃ cs, bounds_error_ints v idxs = .transfer cs) ∧
    (∃ cs, eof_error = .transfer cs) := by
  refine ⟨?_, ?_, ?_, ?_, ?_, ?_, ?_, ?_, ?_, ?_, ?_, ?_, ?_, ?_, ?_, ?_, ?_⟩
  · intro e
    rcases hv : e.inner_ref.valid <;>
      simp [Exception.throw, Ref.lock, hv, jl_throw, RunResult.bind]
  · intro e
    rcases hv : e.inner_ref.valid <;>
      simp [Exception.rethrow, Ref.lock, hv, jl_rethrow_other, RunResult.bind]
  · intro s
    simp [error, jl_error, RunResult.bind]
  · intro s
    simp [error_format, error, jl_error, RunResult.bind]
  · intro ty s
    rcases hv : ty.valid <;>
      simp [exception, Ref.lock, hv, jl_exceptionf, RunResult.bind]
  · intro ty s
    rcases hv : ty.valid <;>
      simp [exception_format, exception, Ref.lock, hv, jl_exceptionf, RunResult.bind]
  · intro f n
    simp [too_few_args, jl_too_few_args, RunResult.bind]
  · intro f n
    simp [too_many_args, jl_too_many_args, RunResult.bind]
  · intro f a b
    rcases ha : a.valid <;> rcases hb : b.valid <;>
      simp [type_error, Ref.lock, ha, hb, jl_type_error, RunResult.bind]
  · intro f c t g
    rcases ht : t.valid <;> rcases hg : g.valid <;>
      simp [type_error_rt, Ref.lock, ht, hg, jl_type_error_rt, RunResult.bind]
  · intro v
    rcases hv : v.valid <;>
      simp [undefined_var_error, Ref.lock, hv, jl_undefined_var_error, RunResult.bind]
  · intro v idx
    rcases hv : v.valid <;> rcases hi : idx.valid <;>
      simp [bounds_error, Ref.lock, hv, hi, jl_bounds_error, RunResult.bind]
  · intro v idxs
    rcases hv : v.valid <;>
      simp [bounds_error_v, Ref.lock, hv, jl_bounds_error_v, RunResult.bind]
    rcases hl : lockList idxs <;> simp [hl, RunResult.bind]
  · intro v i
    rcases hv : v.valid <;>
      simp [bounds_error_int, Ref.lock, hv, jl_bounds_error_int, RunResult.bind]
  · intro vs i
    rcases hl : lockList vs <;>
      simp [bounds_error_tuple_int, hl, jl_bounds_error_tuple_int, RunResult.bind]
  · intro v idxs
    rcases hv : v.valid <;>
      simp [bounds_error_ints, Ref.lock, hv, jl_bounds_error_ints, RunResult.bind]
  · simp [eof_error, jl_eof_error, RunResult.bind]

/-- **C7.** For every `Exception`, the display rendering equals the
debug rendering, and for an exception classified by `with_value` from a
fault object reporting type-name `s`, the debug rendering is that
classified type name. -/
theorem display_eq_debug_eq_typename :
    (∀ e : Exception, e.fmt_display = e.fmt_debug) ∧
    (∀ (r : Ref) (s : String) (e : Exception),
      r.typename = .ok s → Exception.with_value r = .ok e →
      e.fmt_debug = .ok s) := by
  constructor
  · intro e
    rfl
  · intro r s e ht hw
    have hi : e.inner_ref = r := with_value_inner_ref r e hw
    simp [Exception.fmt_debug, hi, ht]

/-- Witness for **C7** at a concrete input. -/
theorem display_eq_debug_eq_typename_witness :
    (Exception.Divide ⟨true, 3, some "DivideError"⟩).fmt_debug = .ok "DivideError" :=
  display_eq_debug_eq_typename.2 ⟨true, 3, some "DivideError"⟩ "DivideError"
    (.Divide ⟨true, 3, some "DivideError"⟩) (by decide) (by decide)

/-- The per-kind description table, indexed by the discriminant of the
kind (spec §4.4: "a fixed per-kind one-line description table ... 25
entries, one per kind including Unknown"). -/
def descriptionTable : Nat → String
  | 0 => "the parameters to a function call do not match a valid signature"
  | 1 => "attempt to access index out-of-bounds"
  | 2 => "composite exception"
  | 3 => "divide by zero"
  | 4 => "the argument is outside of the valid domain"
  | 5 => "no more data is available from file or stream"
  | 6 => "generic error occurred"
  | 7 => "type conversion cannot be done exactly"
  | 8 => "an error occurred when running a module's __init__ "
  | 9 => "the process was stopped by a terminal interrupt (^C)"
  | 10 => "the program reached an invalid exception"
  | 11 => "key doesn't exist in Associative- or Set-like object"
  | 12 => "an error occurred while include-ing, require-ing or using a file"
  | 13 => "operation allocated too much memory"
  | 14 => "operation tried to write to read-only memory"
  | 15 => "remote exception occurred"
  | 16 => "method with the required type signature doesn't exist"
  | 17 => "the result of an expression is too large"
  | 18 => "the expression couldn't be parsed as a valid Julia expression"
  | 19 => "system call failed"
  | 20 => "type assertion failed"
  | 21 => "the item or field is not defined"
  | 22 => "symbol is not defined in current scope"
  | 23 => "byte array does not represent a valid unicode string"
  | _ => "unknown exception"

/-- **C8.** The description lookup is backed by a single fixed table
with exactly one entry per kind (it factors through the 25-valued
discriminant, ignoring the wrapped fault object), and for every one of
the 25 kinds including `Unknown` it returns a non-empty one-line
string. -/
theorem description_total_nonempty :
    (∀ e : Exception, e.description = descriptionTable e.discriminant) ∧
    (∀ e : Exception, 0 < e.description.length ∧
      (e.description.data.all fun c => c != Char.ofNat 10) = true) := by
  constructor
  · intro e
    cases e <;> rfl
  · intro e
    cases e <;> simp only [Exception.description] <;> decide

/-- **C10.** `too_few_args` and `too_many_args` convert their `usize`
argument-count parameter to a 32-bit signed integer before the native
call (reduce modulo `2^32`, reinterpret as two's complement); for every
count at or above `2^31` the native entry point receives a strictly
smaller — at `2^31` itself a negative — count than the caller
supplied. -/
theorem arity_count_truncated_to_i32 :
    (∀ (f : String) (n : Nat),
      too_few_args f n = .transfer [.jl_too_few_args (into_cstring f) (usizeToI32 n)]) ∧
    (∀ (f : String) (n : Nat),
      too_many_args f n = .transfer [.jl_too_many_args (into_cstring f) (usizeToI32 n)]) ∧
    (∀ n : Nat, 2 ^ 31 ≤ n → usizeToI32 n < (n : Int)) ∧
    usizeToI32 (2 ^ 31) < 0 := by
  refine ⟨?_, ?_, ?_, by decide⟩
  · intro f n
    simp [too_few_args, jl_too_few_args, RunResult.bind]
  · intro f n
    simp [too_many_args, jl_too_many_args, RunResult.bind]
  · intro n h
    simp only [usizeToI32]
    split <;> omega

/-- Witness for **C10** at a concrete input. -/
theorem arity_count_truncated_to_i32_witness :
    too_few_args "f" (2 ^ 31) = .transfer [.jl_too_few_args ⟨"f"⟩ (usizeToI32 (2 ^ 31))] ∧
    2 ^ 31 ≤ (2 ^ 31 : Nat) ∧ usizeToI32 (2 ^ 31) < ((2 ^ 31 : Nat) : Int) :=
  ⟨arity_count_truncated_to_i32.1 "f" (2 ^ 31), le_refl _,
   arity_count_truncated_to_i32.2.2.1 (2 ^ 31) (le_refl _)⟩

/-- **C5.** Every fault-raising constructor in the family marshals in
two phases: it locks every Handle argument and converts every text
argument before any foreign call; when all marshalling succeeds it
invokes exactly its one native entry point with the marshalled
arguments (transferring control); and when a marshalling step fails it
returns that error with an empty foreign-call trace, so a normally
returned `Result` only ever reports "could not even attempt the
raise". -/
theorem raise_constructors_two_phase :
    (∀ s : String, error s = .transfer [.jl_error (into_cstring s)]) ∧
    (∀ s : String, error_format s = .transfer [.jl_error (into_cstring s)]) ∧
    (∀ (ty : Datatype) (s : String), ty.valid = true →
      exception ty s = .transfer [.jl_exceptionf ty.ptr (into_cstring s)]) ∧
    (∀ (ty : Datatype) (s : String) (cs : List FCall) (v : Except JlError Unit),
      exception ty s = .ret cs v → cs = [] ∧ ∃ e, v = .error e) ∧
    (∀ (ty : Datatype) (s : String), ty.valid = true →
      exception_format ty s = .transfer [.jl_exceptionf ty.ptr (into_cstring s)]) ∧
    (∀ (ty : Datatype) (s : String) (cs : List FCall) (v : Except JlError Unit),
      exception_format ty s = .ret cs v → cs = [] ∧ ∃ e, v = .error e) ∧
    (∀ (f : String) (n : Nat),
      too_few_args f n = .transfer [.jl_too_few_args (into_cstring f) (usizeToI32 n)]) ∧
    (∀ (f : String) (n : Nat),
      too_many_args f n = .transfer [.jl_too_many_args (into_cstring f) (usizeToI32 n)]) ∧
    (∀ (f : String) (a b : Ref), a.valid = true → b.valid = true →
      type_error f a b = .transfer [.jl_type_error (into_cstring f) a.ptr b.ptr]) ∧
    (∀ (f : String) (a b : Ref) (cs : List FCall) (v : Except JlError Unit),
      type_error f a b = .ret cs v → cs = [] ∧ ∃ e, v = .error e) ∧
    (∀ (f c : String) (t g : Ref), t.valid = true → g.valid = true →
      type_error_rt f c t g
        = .transfer [.jl_type_error_rt (into_cstring f) (into_cstring c) t.ptr g.ptr]) ∧
    (∀ (f c : String) (t g : Ref) (cs : List FCall) (v : Except JlError Unit),
      type_error_rt f c t g = .ret cs v → cs = [] ∧ ∃ e, v = .error e) ∧
    (∀ v : Symbol, v.valid = true →
      undefined_var_error v = .transfer [.jl_undefined_var_error v.ptr]) ∧
    (∀ (v : Symbol) (cs : List FCall) (w : Except JlError Unit),
      undefined_var_error v = .ret cs w → cs = [] ∧ ∃ e, w = .error e) ∧
    (∀ v idx : Ref, v.valid = true → idx.valid = true →
      bounds_error v idx = .transfer [.jl_bounds_error v.ptr idx.ptr]) ∧
    (∀ (v idx : Ref) (cs : List FCall) (w : Except JlError Unit),
      bounds_error v idx = .ret cs w → cs = [] ∧ ∃ e, w = .error e) ∧
    (∀ (v : Ref) (idxs : List Ref), v.valid = true → (∀ r ∈ idxs, r.valid = true) →
      bounds_error_v v idxs = .transfer [.jl_bounds_error_v v.ptr (idxs.map Ref.ptr)]) ∧
    (∀ (v : Ref) (idxs : List Ref) (cs : List FCall) (w : Except JlError Unit),
      bounds_error_v v idxs = .ret cs w → cs = [] ∧ ∃ e, w = .error e) ∧
    (∀ (v : Ref) (i : Nat), v.valid = true →
      bounds_error_int v i = .transfer [.jl_bounds_error_int v.ptr i]) ∧
    (∀ (v : Ref) (i : Nat) (cs : List FCall) (w : Except JlError Unit),
      bounds_error_int v i = .ret cs w → cs = [] ∧ ∃ e, w = .error e) ∧
    (∀ (vs : List Ref) (i : Nat), (∀ r ∈ vs, r.valid = true) →
      bounds_error_tuple_int vs i
        = .transfer [.jl_bounds_error_tuple_int (vs.map Ref.ptr) i]) ∧
    (∀ (vs : List Ref) (i : Nat) (cs : List FCall) (w : Except JlError Unit),
      bounds_error_tuple_int vs i = .ret cs w → cs = [] ∧ ∃ e, w = .error e) ∧
    (∀ (v : Ref) (idxs : List Nat), v.valid = true →
      bounds_error_ints v idxs = .transfer [.jl_bounds_error_ints v.ptr idxs]) ∧
    (∀ (v : Ref) (idxs : List Nat) (cs : List FCall) (w : Except JlError Unit),
      bounds_error_ints v idxs = .ret cs w → cs = [] ∧ ∃ e, w = .error e) ∧
    eof_error = .transfer [.jl_eof_error] := by
  refine ⟨?_, ?_, ?_, ?_, ?_, ?_, ?_, ?_, ?_, ?_, ?_, ?_, ?_, ?_, ?_, ?_, ?_, ?_,
    ?_, ?_, ?_, ?_, ?_, ?_, ?_⟩
  · intro s
    simp [error, jl_error, RunResult.bind]
  · intro s
    simp [error_format, error, jl_error, RunResult.bind]
  · intro ty s h
    simp [exception, Ref.lock, h, jl_exceptionf, RunResult.bind]
  · intro ty s cs v h
    rcases hv : ty.valid <;>
      simp [exception, Ref.lock, hv, jl_exceptionf, RunResult.bind] at h
    exact ⟨h.1, _, h.2.symm⟩
  · intro ty s h
    simp [exception_format, exception, Ref.lock, h, jl_exceptionf, RunResult.bind]
  · intro ty s cs v h
    rcases hv : ty.valid <;>
      simp [exception_format, exception, Ref.lock, hv, jl_exceptionf, RunResult.bind] at h
    exact ⟨h.1, _, h.2.symm⟩
  · intro f n
    simp [too_few_args, jl_too_few_args, RunResult.bind]
  · intro f n
    simp [too_many_args, jl_too_many_args, RunResult.bind]
  · intro f a b ha hb
    simp [type_error, Ref.lock, ha, hb, jl_type_error, RunResult.bind]
  · intro f a b cs v h
    rcases ha : a.valid <;> rcases hb : b.valid <;>
      simp [type_error, Ref.lock, ha, hb, jl_type_error, RunResult.bind] at h <;>
      exact ⟨h.1, _, h.2.symm⟩
  · intro f c t g ht hg
    simp [type_error_rt, Ref.lock, ht, hg, jl_type_error_rt, RunResult.bind]
  · intro f c t g cs v h
    rcases ht : t.valid <;> rcases hg : g.valid <;>
      simp [type_error_rt, Ref.lock, ht, hg, jl_type_error_rt, RunResult.bind] at h <;>
      exact ⟨h.1, _, h.2.symm⟩
  · intro v h
    simp [undefined_var_error, Ref.lock, h, jl_undefined_var_error, RunResult.bind]
  · intro v cs w h
    rcases hv : v.valid <;>
      simp [undefined_var_error, Ref.lock, hv, jl_undefined_var_error, RunResult.bind] at h
    exact ⟨h.1, _, h.2.symm⟩
  · intro v idx hv hi
    simp [bounds_error, Ref.lock, hv, hi, jl_bounds_error, RunResult.bind]
  · intro v idx cs w h
    rcases hv : v.valid <;> rcases hi : idx.valid <;>
      simp [bounds_error, Ref.lock, hv, hi, jl_bounds_error, RunResult.bind] at h <;>
      exact ⟨h.1, _, h.2.symm⟩
  · intro v idxs hv hall
    simp [bounds_error_v, Ref.lock, hv, lockList_ok_of_valid idxs hall,
      jl_bounds_error_v, RunResult.bind]
  · intro v idxs cs w h
    rcases hv : v.valid <;>
      simp [bounds_error_v, Ref.lock, hv, jl_bounds_error_v, RunResult.bind] at h
    · exact ⟨h.1, _, h.2.symm⟩
    · rcases hl : lockList idxs with e | ps <;> simp [hl, RunResult.bind] at h
      exact ⟨h.1, _, h.2.symm⟩
  · intro v i hv
    simp [bounds_error_int, Ref.lock, hv, jl_bounds_error_int, RunResult.bind]
  · intro v i cs w h
    rcases hv : v.valid <;>
      simp [bounds_error_int, Ref.lock, hv, jl_bounds_error_int, RunResult.bind] at h
    exact ⟨h.1, _, h.2.symm⟩
  · intro vs i hall
    simp [bounds_error_tuple_int, lockList_ok_of_valid vs hall,
      jl_bounds_error_tuple_int, RunResult.bind]
  · intro vs i cs w h
    rcases hl : lockList vs with e | ps <;>
      simp [bounds_error_tuple_int, hl, jl_bounds_error_tuple_int, RunResult.bind] at h
    exact ⟨h.1, _, h.2.symm⟩
  · intro v idxs hv
    simp [bounds_error_ints, Ref.lock, hv, jl_bounds_error_ints, RunResult.bind]
  · intro v idxs cs w h
    rcases hv : v.valid <;>
      simp [bounds_error_ints, Ref.lock, hv, jl_bounds_error_ints, RunResult.bind] at h
    exact ⟨h.1, _, h.2.symm⟩
  · rfl

/-- Witness for **C5** at concrete inputs. -/
theorem raise_constructors_two_phase_witness :
    exception ⟨true, 2, none⟩ "msg" = .transfer [.jl_exceptionf 2 (into_cstring "msg")] ∧
    bounds_error_v ⟨true, 1, none⟩ [⟨true, 2, none⟩, ⟨true, 3, none⟩]
      = .transfer [.jl_bounds_error_v 1 [2, 3]] :=
  ⟨raise_constructors_two_phase.2.2.1 ⟨true, 2, none⟩ "msg" (by decide),
   raise_constructors_two_phase.2.2.2.2.2.2.2.2.2.2.2.2.2.2.2.2.1
     ⟨true, 1, none⟩ [⟨true, 2, none⟩, ⟨true, 3, none⟩] (by decide) (by decide)⟩

end JuliaRs
